import Mathlib

/-
Verification of the login gateway in app.py: the system-token cache
(obter_token_sistema), the credential-validation client (validar_login_aluno),
the login route handler, the logout handler, and the spec-described Google
domain gate. Machine time instants are modelled as naturals, outbound HTTP
exchanges as explicit "world" values passed to each operation, and the
mutable module-level cache and the Flask session as explicit state records.
-/

namespace LoginApp

/-- Lifespan of a cached system token, in seconds (TOKEN_LIFESPAN_SECONDS). -/
def TOKEN_LIFESPAN_SECONDS : Nat := 1800

/-- The module-level token cache: token value (None until first fetched) and
the UNIX instant at which it expires (initially 0). -/
structure TokenCache where
  token : Option String
  expires_at : Nat
  deriving DecidableEq, Repr

/-- The initial cache state: token None, expires_at 0. -/
def initialCache : TokenCache := { token := none, expires_at := 0 }

/-- Python truthiness of an optional string: None and the empty string are
falsy, every other string is truthy. -/
def optStrTruthy : Option String → Bool
  | none => false
  | some s => s ≠ ""

/-- Whitespace characters removed by Python str.strip with no argument. -/
def isPySpace (c : Char) : Bool :=
  c = ' ' || c = '\t' || c = '\n' || c = '\r' || c = '\x0b' || c = '\x0c'

/-- Python str.strip with no argument: drop leading and trailing whitespace. -/
def pyStrip (s : String) : String :=
  ⟨((s.data.dropWhile isPySpace).reverse.dropWhile isPySpace).reverse⟩

/-- Outcome of one outbound HTTP POST as obter_token_sistema observes it:
either a requests.exceptions.RequestException (network error, timeout, or a
non-success status raised by raise_for_status), or a success status with the
given response body text. -/
inductive HttpResult where
  | netError
  | ok (body : String)
  deriving DecidableEq, Repr

/-- Result of one call to obter_token_sistema: the returned value (None on
failure), the cache state after the call, and whether an outbound
system-authentication request was issued. -/
structure FetchOutcome where
  result : Option String
  cache : TokenCache
  fetched : Bool
  deriving DecidableEq, Repr

/-- Shallow embedding of obter_token_sistema from app.py: return the cached
token when it is truthy and the current time is strictly before expires_at;
otherwise POST to the authentication endpoint, and on a success status with a
body whose stripped text is truthy, store it with expires_at = now + 1800 and
return it; on any failure return None leaving the cache as it was. -/
def obter_token_sistema (cache : TokenCache) (now : Nat) (resp : HttpResult) :
    FetchOutcome :=
  if optStrTruthy cache.token ∧ now < cache.expires_at then
    { result := cache.token, cache := cache, fetched := false }
  else
    match resp with
    | .netError => { result := none, cache := cache, fetched := true }
    | .ok body =>
      let novo_token : Option String :=
        if body ≠ "" then some (pyStrip body) else none
      if optStrTruthy novo_token then
        { result := novo_token,
          cache := { token := novo_token,
                     expires_at := now + TOKEN_LIFESPAN_SECONDS },
          fetched := true }
      else
        { result := none, cache := cache, fetched := true }

/-- A sequence of obter_token_sistema calls, each with its instant and the
world's response were a fetch attempted; returns the final cache and whether
any call in the sequence issued an outbound fetch. -/
def runCalls : TokenCache → List (Nat × HttpResult) → TokenCache × Bool
  | cache, [] => (cache, false)
  | cache, (now, resp) :: rest =>
    let step := obter_token_sistema cache now resp
    let tail := runCalls step.cache rest
    (tail.1, step.fetched || tail.2)

/-- A parsed JSON object body of the validation endpoint, keeping the three
keys the handler reads; each is absent or holds a value (acessoValido
boolean-ish, alunoId and nome strings). -/
structure ValidationResp where
  acessoValido : Option Bool
  alunoId : Option String
  nome : Option String
  deriving DecidableEq, Repr

/-- Python truthiness of the parsed dict: an empty JSON object is falsy. -/
def dictNonEmpty (r : ValidationResp) : Bool :=
  r.acessoValido.isSome || r.alunoId.isSome || r.nome.isSome

/-- Outcome of the outbound validation POST as validar_login_aluno observes
it: a RequestException (network error, timeout, non-success status), a
success status whose body fails to parse as JSON, or a success status with a
parsed JSON object body. -/
inductive ValidationHttp where
  | netError
  | okNotJson
  | okJson (r : ValidationResp)
  deriving DecidableEq, Repr

/-- Shallow embedding of validar_login_aluno from app.py: POST the
credentials with the system token header; on a success status with a JSON
body return the parsed dict, on JSONDecodeError or RequestException return
None. The token and credentials only travel outbound, so the observed result
depends only on the world's response. -/
def validar_login_aluno (token codigo senha : String) (http : ValidationHttp) :
    Option ValidationResp :=
  match token, codigo, senha, http with
  | _, _, _, .netError => none
  | _, _, _, .okNotJson => none
  | _, _, _, .okJson r => some r

/-- The Flask session as the handlers use it: whether the key
usuario_logado is present, and the values stored under aluno_id and
aluno_nome (absent keys are None). -/
structure SessionState where
  usuario_logado : Bool
  aluno_id : Option String
  aluno_nome : Option String
  deriving DecidableEq, Repr

/-- A session with no keys set: the Anonymous state. -/
def anonymousSession : SessionState :=
  { usuario_logado := false, aluno_id := none, aluno_nome := none }

/-- The HTTP response a route handler produces: redirect to the portal,
redirect to the login page, or render the login template with an optional
flashed message. -/
inductive RouteResponse where
  | redirectPortal
  | redirectLogin
  | renderLogin (flash : Option String)
  deriving DecidableEq, Repr

/-- HTTP request methods the login route accepts. -/
inductive Method where
  | GET
  | POST
  deriving DecidableEq, Repr

/-- Result of one login-route request: the response, the session and token
cache afterwards, and how many outbound system-authentication and
credential-validation calls were issued. -/
structure LoginResult where
  response : RouteResponse
  session : SessionState
  cache : TokenCache
  authCalls : Nat
  validationCalls : Nat
  deriving DecidableEq, Repr

/-- Shallow embedding of the login route handler from app.py. Inputs: the
request method, the submitted form fields (an absent field and an empty one
are both falsy, modelled as the empty string), the current session and
cache, the current instant, and the world's responses to the two possible
outbound calls. Mirrors the handler's order: logged-in redirect first, then
the POST branch with empty-field validation, system-token fetch, credential
validation, and the grant/deny decision; a GET renders the login page. -/
def login (method : Method) (codigo_usuario senha_usuario : String)
    (sess : SessionState) (cache : TokenCache) (now : Nat)
    (authResp : HttpResult) (valHttp : ValidationHttp) : LoginResult :=
  if sess.usuario_logado then
    { response := .redirectPortal, session := sess, cache := cache,
      authCalls := 0, validationCalls := 0 }
  else
    match method with
    | .GET =>
      { response := .renderLogin none, session := sess, cache := cache,
        authCalls := 0, validationCalls := 0 }
    | .POST =>
      if codigo_usuario = "" ∨ senha_usuario = "" then
        { response := .renderLogin (some "Código e senha são obrigatórios!"),
          session := sess, cache := cache, authCalls := 0,
          validationCalls := 0 }
      else
        let fetch := obter_token_sistema cache now authResp
        let nAuth : Nat := if fetch.fetched then 1 else 0
        match fetch.result with
        | none =>
          { response :=
              .renderLogin
                (some "Erro crítico no sistema. Tente novamente mais tarde."),
            session := sess, cache := fetch.cache, authCalls := nAuth,
            validationCalls := 0 }
        | some token_sistema =>
          if token_sistema = "" then
            { response :=
                .renderLogin
                  (some "Erro crítico no sistema. Tente novamente mais tarde."),
              session := sess, cache := fetch.cache, authCalls := nAuth,
              validationCalls := 0 }
          else
            let resposta_validacao :=
              validar_login_aluno token_sistema codigo_usuario senha_usuario
                valHttp
            match resposta_validacao with
            | some r =>
              if dictNonEmpty r ∧ r.acessoValido = some true then
                { response := .redirectPortal,
                  session :=
                    { usuario_logado := true,
                      aluno_id := some (r.alunoId.getD codigo_usuario),
                      aluno_nome := some (r.nome.getD "Estudante") },
                  cache := fetch.cache, authCalls := nAuth,
                  validationCalls := 1 }
              else
                { response := .renderLogin (some "Código ou senha inválidos."),
                  session := sess, cache := fetch.cache, authCalls := nAuth,
                  validationCalls := 1 }
            | none =>
              { response := .renderLogin (some "Código ou senha inválidos."),
                session := sess, cache := fetch.cache, authCalls := nAuth,
                validationCalls := 1 }

/-- Result of a logout request: the subject id written to the log, the
session afterwards, and the response. -/
structure LogoutResult where
  loggedId : String
  session : SessionState
  response : RouteResponse
  deriving DecidableEq, Repr

/-- Shallow embedding of the logout route handler from app.py: read
aluno_id (default "desconhecido") for the log, clear every session key, and
redirect to the login page. -/
def logout (sess : SessionState) : LogoutResult :=
  { loggedId := sess.aluno_id.getD "desconhecido",
    session := anonymousSession,
    response := .redirectLogin }

/-- Outcome of the student federated-login domain gate. -/
inductive DomainGateOutcome where
  | granted (subject_id display_name : String)
  | denied
  deriving DecidableEq, Repr

/-- Modelled from the spec: the Google student flow is absent from app.py,
so the domain allow-list check of section 4.4 Flow 2 is taken from the
spec's words — the email claim is denied when it is empty or its lower-cased
form does not end with the configured allowed domain suffix; a raw
case-insensitive string suffix match, not a parsed domain component. -/
def emailDomainOk (allowedSuffix email : String) : Bool :=
  email ≠ "" && List.isSuffixOf allowedSuffix.data (email.data.map Char.toLower)

/-- Modelled from the spec: the Google callback's session decision is absent
from app.py; per section 4.4 Flow 2, an email failing the domain gate is
denied and the session stays Anonymous, a passing email is granted with
subject_id the email and display_name the identity claim's name field
(default label when absent). -/
def google_callback (allowedSuffix email : String) (nameClaim : Option String) :
    DomainGateOutcome :=
  if emailDomainOk allowedSuffix email then
    .granted email (nameClaim.getD "Estudante")
  else
    .denied

/-- The LoginSession invariant of the spec's data model: an authenticated
session carries a present, non-empty subject id and display name. -/
def sessionInvariant (s : SessionState) : Prop :=
  s.usuario_logado = true →
    (∃ a, s.aluno_id = some a ∧ a ≠ "") ∧
    (∃ n, s.aluno_nome = some n ∧ n ≠ "")

/-- A truthy optional string is some non-empty string. -/
theorem optStrTruthy_iff (o : Option String) :
    optStrTruthy o = true ↔ ∃ t, o = some t ∧ t ≠ "" := by
  cases o <;> simp [optStrTruthy]

/-- On a cache hit (truthy token, now strictly before expiry) the call
returns the cached token, leaves the cache unchanged and fetches nothing. -/
theorem obter_token_hit (cache : TokenCache) (now : Nat) (resp : HttpResult)
    (h1 : optStrTruthy cache.token = true) (h2 : now < cache.expires_at) :
    obter_token_sistema cache now resp =
      { result := cache.token, cache := cache, fetched := false } := by
  unfold obter_token_sistema
  rw [if_pos ⟨h1, h2⟩]

/-- On a cache miss with a success response whose stripped body is
non-empty, the call stores the stripped body with expiry now + lifespan and
returns it. -/
theorem obter_token_miss_ok (cache : TokenCache) (now : Nat) (body : String)
    (hmiss : ¬ (optStrTruthy cache.token = true ∧ now < cache.expires_at))
    (hbody : pyStrip body ≠ "") :
    obter_token_sistema cache now (.ok body) =
      { result := some (pyStrip body),
        cache := { token := some (pyStrip body),
                   expires_at := now + TOKEN_LIFESPAN_SECONDS },
        fetched := true } := by
  have hb : body ≠ "" := by
    intro h
    subst h
    exact hbody rfl
  unfold obter_token_sistema
  rw [if_neg hmiss]
  simp [hb, optStrTruthy, hbody]

/-- A sequence of calls made strictly before expiry of a truthy cached
token leaves the cache unchanged and performs no outbound fetch. -/
theorem runCalls_all_hits (cache : TokenCache)
    (h1 : optStrTruthy cache.token = true) :
    ∀ calls : List (Nat × HttpResult),
      (∀ p ∈ calls, p.1 < cache.expires_at) →
      runCalls cache calls = (cache, false)
  | [], _ => rfl
  | (now, resp) :: rest, h => by
    have hhit := obter_token_hit cache now resp h1 (h _ (List.mem_cons_self _ _))
    have ih := runCalls_all_hits cache h1 rest
      (fun q hq => h q (List.mem_cons_of_mem _ hq))
    simp [runCalls, hhit, ih]

/-- A parsed validation result can only come from a success response with a
JSON object body. -/
theorem validar_some_okJson (token codigo senha : String) (v : ValidationHttp)
    (r : ValidationResp)
    (h : validar_login_aluno token codigo senha v = some r) :
    v = .okJson r := by
  cases v <;> simp [validar_login_aluno] at h
  simp [h]

/-- With an anonymous session, non-empty fields and a truthy fetched token,
the POST handler reaches the credential-validation step and decides from its
outcome alone. -/
theorem login_post_reaches_validation (codigo senha : String)
    (sess : SessionState) (cache : TokenCache) (now : Nat)
    (authResp : HttpResult) (valHttp : ValidationHttp)
    (hanon : sess.usuario_logado = false) (hc : codigo ≠ "") (hs : senha ≠ "")
    (htok : optStrTruthy (obter_token_sistema cache now authResp).result = true) :
    login .POST codigo senha sess cache now authResp valHttp =
      match valHttp with
      | .okJson r =>
        if dictNonEmpty r ∧ r.acessoValido = some true then
          { response := .redirectPortal,
            session := { usuario_logado := true,
                         aluno_id := some (r.alunoId.getD codigo),
                         aluno_nome := some (r.nome.getD "Estudante") },
            cache := (obter_token_sistema cache now authResp).cache,
            authCalls :=
              if (obter_token_sistema cache now authResp).fetched then 1 else 0,
            validationCalls := 1 }
        else
          { response := .renderLogin (some "Código ou senha inválidos."),
            session := sess,
            cache := (obter_token_sistema cache now authResp).cache,
            authCalls :=
              if (obter_token_sistema cache now authResp).fetched then 1 else 0,
            validationCalls := 1 }
      | _ =>
          { response := .renderLogin (some "Código ou senha inválidos."),
            session := sess,
            cache := (obter_token_sistema cache now authResp).cache,
            authCalls :=
              if (obter_token_sistema cache now authResp).fetched then 1 else 0,
            validationCalls := 1 } := by
  obtain ⟨t, ht, htne⟩ := (optStrTruthy_iff _).mp htok
  have hne : ¬ (codigo = "" ∨ senha = "") := by
    rintro (h | h)
    · exact hc h
    · exact hs h
  simp only [login, hanon, Bool.false_eq_true, if_false, if_neg hne, ht]
  cases valHttp <;> simp [validar_login_aluno, htne]

/-- Specialization of the previous lemma to a parsed JSON object response:
the handler grants exactly on the truthiness test of the parsed dict. -/
theorem login_post_okJson (codigo senha : String)
    (sess : SessionState) (cache : TokenCache) (now : Nat)
    (authResp : HttpResult) (r : ValidationResp)
    (hanon : sess.usuario_logado = false) (hc : codigo ≠ "") (hs : senha ≠ "")
    (htok : optStrTruthy (obter_token_sistema cache now authResp).result = true) :
    login .POST codigo senha sess cache now authResp (.okJson r) =
      if dictNonEmpty r ∧ r.acessoValido = some true then
        { response := .redirectPortal,
          session := { usuario_logado := true,
                       aluno_id := some (r.alunoId.getD codigo),
                       aluno_nome := some (r.nome.getD "Estudante") },
          cache := (obter_token_sistema cache now authResp).cache,
          authCalls :=
            if (obter_token_sistema cache now authResp).fetched then 1 else 0,
          validationCalls := 1 }
      else
        { response := .renderLogin (some "Código ou senha inválidos."),
          session := sess,
          cache := (obter_token_sistema cache now authResp).cache,
          authCalls :=
            if (obter_token_sistema cache now authResp).fetched then 1 else 0,
          validationCalls := 1 } :=
  login_post_reaches_validation codigo senha sess cache now authResp
    (.okJson r) hanon hc hs htok

/-- Every login request either leaves the session untouched or, on a grant,
builds the authenticated session from a parsed JSON response and a non-empty
submitted code. -/
theorem login_session_cases (method : Method) (codigo senha : String)
    (sess : SessionState) (cache : TokenCache) (now : Nat)
    (authResp : HttpResult) (valHttp : ValidationHttp) :
    (login method codigo senha sess cache now authResp valHttp).session = sess ∨
    (codigo ≠ "" ∧ ∃ r : ValidationResp, valHttp = .okJson r ∧
      r.acessoValido = some true ∧
      (login method codigo senha sess cache now authResp valHttp).session =
        { usuario_logado := true,
          aluno_id := some (r.alunoId.getD codigo),
          aluno_nome := some (r.nome.getD "Estudante") }) := by
  simp only [login]
  split
  · exact Or.inl rfl
  split
  · exact Or.inl rfl
  split
  · exact Or.inl rfl
  next hne =>
  split
  · exact Or.inl rfl
  split
  · exact Or.inl rfl
  split
  next heq =>
    split
    next hg =>
      exact Or.inr ⟨fun hcod => hne (Or.inl hcod), _,
        validar_some_okJson _ _ _ _ _ heq, hg.2, rfl⟩
    · exact Or.inl rfl
  · exact Or.inl rfl

/-- C1: on a cache hit (token set and truthy, current instant strictly
before the stored expiry) obter_token_sistema returns the cached value with
no outbound call and an unchanged cache; and after a successful outbound
fetch, every sequence of calls made strictly within the 1800-second validity
window triggers no further outbound fetch and leaves the cache unchanged. -/
theorem C1_cache_hit_no_second_fetch :
    (∀ (cache : TokenCache) (now : Nat) (resp : HttpResult),
        optStrTruthy cache.token = true → now < cache.expires_at →
        obter_token_sistema cache now resp =
          { result := cache.token, cache := cache, fetched := false }) ∧
    (∀ (cache : TokenCache) (now : Nat) (body : String),
        (obter_token_sistema cache now (.ok body)).fetched = true →
        pyStrip body ≠ "" →
        ∀ calls : List (Nat × HttpResult),
          (∀ p ∈ calls, p.1 < now + TOKEN_LIFESPAN_SECONDS) →
          runCalls (obter_token_sistema cache now (.ok body)).cache calls =
            ((obter_token_sistema cache now (.ok body)).cache, false)) := by
  constructor
  · exact fun cache now resp h1 h2 => obter_token_hit cache now resp h1 h2
  · intro cache now body hf hbody calls hcalls
    have hmiss : ¬ (optStrTruthy cache.token = true ∧ now < cache.expires_at) := by
      intro hhit
      rw [obter_token_hit cache now (.ok body) hhit.1 hhit.2] at hf
      simp at hf
    rw [obter_token_miss_ok cache now body hmiss hbody]
    exact runCalls_all_hits _ (by simp [optStrTruthy, hbody]) calls hcalls

/-- Witness for C1: a concrete cache hit returns the cached token with no
fetch, and after a concrete successful fetch two calls inside the window
leave the cache untouched with no further fetch. -/
theorem C1_cache_hit_no_second_fetch_witness :
    obter_token_sistema ⟨some "T1", 1800⟩ 5 .netError =
      { result := some "T1", cache := ⟨some "T1", 1800⟩, fetched := false } ∧
    runCalls (obter_token_sistema initialCache 0 (.ok " tokA ")).cache
        [(0, .netError), (1799, .ok "x")] =
      ((obter_token_sistema initialCache 0 (.ok " tokA ")).cache, false) :=
  ⟨C1_cache_hit_no_second_fetch.1 ⟨some "T1", 1800⟩ 5 .netError (by decide)
      (by decide),
   C1_cache_hit_no_second_fetch.2 initialCache 0 " tokA " (by decide)
      (by decide) [(0, .netError), (1799, .ok "x")] (by decide)⟩

/-- C2 counterexample: with a valid cached system token and a credential
validation call that fails with no parseable result, the handler flashes the
invalid-credentials message rather than the generic system-error message,
contrary to the claim. -/
theorem C2_counterexample :
    (login .POST "123" "pw" anonymousSession ⟨some "T1", 1800⟩ 5 .netError
        .netError).response =
      .renderLogin (some "Código ou senha inválidos.") ∧
    (login .POST "123" "pw" anonymousSession ⟨some "T1", 1800⟩ 5 .netError
        .netError).response ≠
      .renderLogin (some "Erro crítico no sistema. Tente novamente mais tarde.") ∧
    (login .POST "123" "pw" anonymousSession ⟨some "T1", 1800⟩ 5 .netError
        .netError).session = anonymousSession := by
  decide

/-- C2 (amended): in the guardian/staff flow, when the credential-validation
call fails with SystemUnavailable (returns no parseable result) the handler
surfaces the same invalid-credentials message it uses for Denied — the
generic system-error message is reserved for a failed system-token fetch —
and the session remains Anonymous. -/
theorem C2_system_unavailable_message (codigo senha : String)
    (sess : SessionState) (cache : TokenCache) (now : Nat)
    (authResp : HttpResult) (valHttp : ValidationHttp)
    (hanon : sess.usuario_logado = false) (hc : codigo ≠ "") (hs : senha ≠ "")
    (htok : optStrTruthy (obter_token_sistema cache now authResp).result = true)
    (hval : valHttp = .netError ∨ valHttp = .okNotJson) :
    (login .POST codigo senha sess cache now authResp valHttp).response =
      .renderLogin (some "Código ou senha inválidos.") ∧
    (login .POST codigo senha sess cache now authResp valHttp).session = sess := by
  rcases hval with h | h <;> subst h <;>
    rw [login_post_reaches_validation codigo senha sess cache now authResp _
      hanon hc hs htok] <;>
    exact ⟨rfl, rfl⟩

/-- Witness for C2 (amended) at concrete inputs: a success status whose body
is not parseable JSON yields the invalid-credentials flash and an unchanged
anonymous session. -/
theorem C2_system_unavailable_message_witness :
    (login .POST "123" "pw" anonymousSession ⟨some "T1", 1800⟩ 5 .netError
        .okNotJson).response =
      .renderLogin (some "Código ou senha inválidos.") ∧
    (login .POST "123" "pw" anonymousSession ⟨some "T1", 1800⟩ 5 .netError
        .okNotJson).session = anonymousSession :=
  C2_system_unavailable_message "123" "pw" anonymousSession ⟨some "T1", 1800⟩ 5
    .netError .okNotJson rfl (by decide) (by decide) (by decide) (Or.inr rfl)

/-- C3: with an HTTP-success, parseable JSON validation response, the login
outcome is Granted (portal redirect) exactly when acessoValido is present
and true, in which case the session takes its subject id from alunoId
(falling back to the submitted code when absent) and its display name from
nome (falling back to the default label when absent); when acessoValido is
absent or false the outcome is Denied and the session is unchanged. -/
theorem C3_granted_iff_acessoValido (codigo senha : String)
    (sess : SessionState) (cache : TokenCache) (now : Nat)
    (authResp : HttpResult) (r : ValidationResp)
    (hanon : sess.usuario_logado = false) (hc : codigo ≠ "") (hs : senha ≠ "")
    (htok : optStrTruthy (obter_token_sistema cache now authResp).result = true) :
    ((login .POST codigo senha sess cache now authResp (.okJson r)).response =
        .redirectPortal ↔ r.acessoValido = some true) ∧
    (r.acessoValido = some true →
      (login .POST codigo senha sess cache now authResp (.okJson r)).session =
        { usuario_logado := true, aluno_id := some (r.alunoId.getD codigo),
          aluno_nome := some (r.nome.getD "Estudante") }) ∧
    (r.acessoValido ≠ some true →
      (login .POST codigo senha sess cache now authResp (.okJson r)).response =
        .renderLogin (some "Código ou senha inválidos.") ∧
      (login .POST codigo senha sess cache now authResp (.okJson r)).session =
        sess) := by
  rw [login_post_okJson codigo senha sess cache now authResp r
    hanon hc hs htok]
  by_cases hg : r.acessoValido = some true
  · have hd : dictNonEmpty r = true := by simp [dictNonEmpty, hg]
    rw [if_pos ⟨hd, hg⟩]
    exact ⟨⟨fun _ => hg, fun _ => rfl⟩, fun _ => rfl, fun hng => absurd hg hng⟩
  · rw [if_neg (fun hh => hg hh.2)]
    exact ⟨⟨fun h => absurd h (by simp), fun h => absurd h hg⟩,
      fun h => absurd h hg, fun _ => ⟨rfl, rfl⟩⟩

/-- Witness for C3 at concrete inputs: a granted response populates the
session from alunoId and nome, and a denied response flashes the
invalid-credentials message. -/
theorem C3_granted_iff_acessoValido_witness :
    (login .POST "123" "pw" anonymousSession ⟨some "T1", 1800⟩ 5 .netError
        (.okJson ⟨some true, some "A1", some "Maria"⟩)).session =
      { usuario_logado := true, aluno_id := some "A1",
        aluno_nome := some "Maria" } ∧
    (login .POST "123" "pw" anonymousSession ⟨some "T1", 1800⟩ 5 .netError
        (.okJson ⟨some false, none, none⟩)).response =
      .renderLogin (some "Código ou senha inválidos.") :=
  ⟨(C3_granted_iff_acessoValido "123" "pw" anonymousSession ⟨some "T1", 1800⟩ 5
      .netError ⟨some true, some "A1", some "Maria"⟩ rfl (by decide) (by decide)
      (by decide)).2.1 rfl,
   ((C3_granted_iff_acessoValido "123" "pw" anonymousSession ⟨some "T1", 1800⟩ 5
      .netError ⟨some false, none, none⟩ rfl (by decide) (by decide)
      (by decide)).2.2 (by simp)).1⟩

/-- C4: when the cache is stale or empty and the system-authentication
exchange fails — a network error, timeout or non-success status (all raising
the same request exception) or an empty response body — obter_token_sistema
returns no token and leaves the whole cache record, token value and expiry
included, unchanged, having made exactly the one outbound attempt. -/
theorem C4_failure_preserves_cache (cache : TokenCache) (now : Nat)
    (resp : HttpResult)
    (hmiss : ¬ (optStrTruthy cache.token = true ∧ now < cache.expires_at))
    (hfail : resp = .netError ∨ resp = .ok "") :
    obter_token_sistema cache now resp =
      { result := none, cache := cache, fetched := true } := by
  rcases hfail with h | h
  · subst h
    unfold obter_token_sistema
    rw [if_neg hmiss]
  · subst h
    unfold obter_token_sistema
    rw [if_neg hmiss]
    simp [optStrTruthy]

/-- Witness for C4 at a concrete stale cache: an empty success body returns
no token and leaves the stale entry untouched. -/
theorem C4_failure_preserves_cache_witness :
    obter_token_sistema ⟨some "old", 100⟩ 100 (.ok "") =
      { result := none, cache := ⟨some "old", 100⟩, fetched := true } :=
  C4_failure_preserves_cache ⟨some "old", 100⟩ 100 (.ok "") (by decide)
    (Or.inr rfl)

/-- C5 counterexample: a whitespace-only body is a non-empty body on an HTTP
success, yet the call returns no token and leaves the cache exactly as it
was, instead of storing the trimmed body and refreshing the expiry as the
claim requires. -/
theorem C5_counterexample :
    (" " : String) ≠ "" ∧
    obter_token_sistema initialCache 0 (.ok " ") =
      { result := none, cache := initialCache, fetched := true } := by
  decide

/-- C5 (amended): whenever the cache is expired or empty and the exchange
returns an HTTP success whose body is non-empty after trimming surrounding
whitespace, obter_token_sistema overwrites the cached value with the trimmed
body, sets the expiry to the current time plus exactly 1800 seconds, and
returns the new token. -/
theorem C5_success_updates_cache (cache : TokenCache) (now : Nat)
    (body : String)
    (hmiss : ¬ (optStrTruthy cache.token = true ∧ now < cache.expires_at))
    (hbody : pyStrip body ≠ "") :
    obter_token_sistema cache now (.ok body) =
      { result := some (pyStrip body),
        cache := { token := some (pyStrip body), expires_at := now + 1800 },
        fetched := true } :=
  obter_token_miss_ok cache now body hmiss hbody

/-- Witness for C5 (amended) at a concrete expired cache and body. -/
theorem C5_success_updates_cache_witness :
    obter_token_sistema ⟨some "old", 50⟩ 50 (.ok " tokB\n") =
      { result := some "tokB",
        cache := { token := some "tokB", expires_at := 1850 },
        fetched := true } :=
  C5_success_updates_cache ⟨some "old", 50⟩ 50 " tokB\n" (by decide) (by decide)

/-- C6 counterexample: under the spec's configured example suffix, the
maliciously similar address user@evilsoucarbonell.com.br does not end with
the suffix (the character before soucarbonell.com.br is l, not @), so the
literal case-insensitive suffix match denies it rather than granting it. -/
theorem C6_counterexample :
    google_callback "@soucarbonell.com.br" "user@evilsoucarbonell.com.br"
      (some "Mallory") = .denied := by
  decide

/-- C6 (amended): an email claim that is empty, or whose lower-cased form
does not end with the configured allowed domain suffix, is denied; an email
whose lower-cased form does end with the suffix is granted with the email as
subject and the name claim (or the default label) as display name. The
address user@evilsoucarbonell.com.br is granted only when the configured
suffix omits the leading at-sign (for example soucarbonell.com.br); under
the spec's example suffix @soucarbonell.com.br it is denied. -/
theorem C6_domain_gate (allowedSuffix email : String)
    (nameClaim : Option String) :
    (email = "" → google_callback allowedSuffix email nameClaim = .denied) ∧
    (List.isSuffixOf allowedSuffix.data (email.data.map Char.toLower) = false →
      google_callback allowedSuffix email nameClaim = .denied) ∧
    (email ≠ "" →
      List.isSuffixOf allowedSuffix.data (email.data.map Char.toLower) = true →
      google_callback allowedSuffix email nameClaim =
        .granted email (nameClaim.getD "Estudante")) := by
  refine ⟨fun he => ?_, fun hn => ?_, fun he hs => ?_⟩
  · simp [google_callback, emailDomainOk, he]
  · simp [google_callback, emailDomainOk, hn]
  · simp [google_callback, emailDomainOk, he, hs]

/-- Witness for C6 (amended): the in-domain address is granted, a foreign
domain and the empty email are denied, and the evil-subdomain address is
granted precisely when the configured suffix omits the leading at-sign. -/
theorem C6_domain_gate_witness :
    google_callback "@soucarbonell.com.br" "User@SouCarbonell.com.br"
        (some "Maria") = .granted "User@SouCarbonell.com.br" "Maria" ∧
    google_callback "@soucarbonell.com.br" "user@other.com" none = .denied ∧
    google_callback "@soucarbonell.com.br" "" none = .denied ∧
    google_callback "soucarbonell.com.br" "user@evilsoucarbonell.com.br" none =
      .granted "user@evilsoucarbonell.com.br" "Estudante" :=
  ⟨(C6_domain_gate "@soucarbonell.com.br" "User@SouCarbonell.com.br"
      (some "Maria")).2.2 (by decide) (by decide),
   (C6_domain_gate "@soucarbonell.com.br" "user@other.com" none).2.1
      (by decide),
   (C6_domain_gate "@soucarbonell.com.br" "" none).1 rfl,
   (C6_domain_gate "soucarbonell.com.br" "user@evilsoucarbonell.com.br"
      none).2.2 (by decide) (by decide)⟩

/-- C7: a POST to the login route with an empty code or password field,
while the session is anonymous, is rejected with the local validation
message, issues no outbound call of either kind, and leaves the session and
the token cache unchanged. -/
theorem C7_empty_fields_no_outbound (codigo senha : String)
    (sess : SessionState) (cache : TokenCache) (now : Nat)
    (authResp : HttpResult) (valHttp : ValidationHttp)
    (hanon : sess.usuario_logado = false)
    (hempty : codigo = "" ∨ senha = "") :
    login .POST codigo senha sess cache now authResp valHttp =
      { response := .renderLogin (some "Código e senha são obrigatórios!"),
        session := sess, cache := cache, authCalls := 0,
        validationCalls := 0 } := by
  rcases hempty with h | h <;> subst h <;> simp [login, hanon]

/-- Witness for C7 at a concrete empty code field: the worlds would answer
both outbound calls, yet neither is made. -/
theorem C7_empty_fields_no_outbound_witness :
    login .POST "" "pw" anonymousSession initialCache 0 (.ok "tok")
        (.okJson ⟨some true, none, none⟩) =
      { response := .renderLogin (some "Código e senha são obrigatórios!"),
        session := anonymousSession, cache := initialCache, authCalls := 0,
        validationCalls := 0 } :=
  C7_empty_fields_no_outbound "" "pw" anonymousSession initialCache 0
    (.ok "tok") (.okJson ⟨some true, none, none⟩) rfl (Or.inl rfl)

/-- C8: logout unconditionally clears every session attribute, logging the
previously held subject id (or the default desconhecido label when none) and
redirecting to the login page; applied again to the already-anonymous result
it is a no-op on the session that still redirects without error. -/
theorem C8_logout_idempotent (sess : SessionState) :
    logout sess =
      { loggedId := sess.aluno_id.getD "desconhecido",
        session := anonymousSession, response := .redirectLogin } ∧
    logout (logout sess).session =
      { loggedId := "desconhecido", session := anonymousSession,
        response := .redirectLogin } ∧
    (logout (logout sess).session).session = (logout sess).session :=
  ⟨rfl, rfl, rfl⟩

/-- C9 counterexample: a granted validation response carrying a present but
empty alunoId and nome produces an authenticated session whose subject id
and display name are empty strings, violating the invariant the claim
asserts for arbitrary response contents. -/
theorem C9_counterexample :
    (login .POST "123" "pw" anonymousSession ⟨some "T1", 1800⟩ 5 .netError
        (.okJson ⟨some true, some "", some ""⟩)).session =
      { usuario_logado := true, aluno_id := some "", aluno_nome := some "" } ∧
    ¬ sessionInvariant
      (login .POST "123" "pw" anonymousSession ⟨some "T1", 1800⟩ 5 .netError
        (.okJson ⟨some true, some "", some ""⟩)).session := by
  have hses : (login .POST "123" "pw" anonymousSession ⟨some "T1", 1800⟩ 5
      .netError (.okJson ⟨some true, some "", some ""⟩)).session =
      { usuario_logado := true, aluno_id := some "", aluno_nome := some "" } := by
    decide
  refine ⟨hses, fun h => ?_⟩
  rw [hses] at h
  obtain ⟨⟨a, ha, hane⟩, -⟩ := h rfl
  exact hane (Option.some.inj ha).symm

/-- C9 (amended): every login and logout preserves the session invariant
provided any alunoId or nome value present in a granted validation response
is non-empty; absent fields fall back to the non-empty submitted code and
the default label, so only a present-but-empty upstream field can break the
invariant. -/
theorem C9_invariant_preserved (method : Method) (codigo senha : String)
    (sess : SessionState) (cache : TokenCache) (now : Nat)
    (authResp : HttpResult) (valHttp : ValidationHttp)
    (hinv : sessionInvariant sess)
    (hfields : ∀ r : ValidationResp, valHttp = .okJson r →
      (∀ a, r.alunoId = some a → a ≠ "") ∧ (∀ n, r.nome = some n → n ≠ "")) :
    sessionInvariant
      (login method codigo senha sess cache now authResp valHttp).session ∧
    sessionInvariant (logout sess).session := by
  constructor
  · rcases login_session_cases method codigo senha sess cache now authResp
      valHttp with h | ⟨hc, r, hv, hg, h⟩
    · rw [h]; exact hinv
    · rw [h]
      intro _
      constructor
      · cases ha : r.alunoId with
        | none => exact ⟨codigo, by simp [ha], hc⟩
        | some a => exact ⟨a, by simp [ha], (hfields r hv).1 a ha⟩
      · cases hn : r.nome with
        | none => exact ⟨"Estudante", by simp [hn], by decide⟩
        | some n => exact ⟨n, by simp [hn], (hfields r hv).2 n hn⟩
  · intro h
    simp [logout, anonymousSession] at h

/-- Witness for C9 (amended) at a concrete granted login with absent
optional fields, and logout from the anonymous session. -/
theorem C9_invariant_preserved_witness :
    sessionInvariant
      (login .POST "123" "pw" anonymousSession ⟨some "T1", 1800⟩ 5 .netError
        (.okJson ⟨some true, none, none⟩)).session ∧
    sessionInvariant (logout anonymousSession).session :=
  C9_invariant_preserved .POST "123" "pw" anonymousSession ⟨some "T1", 1800⟩ 5
    .netError (.okJson ⟨some true, none, none⟩)
    (fun h => absurd h (by decide))
    (fun r hr => by cases hr; simp)

/-- C10: any request to the login route made while the session is already
authenticated redirects to the portal at once: the result is the same for
every method and submitted field values, issues no outbound call of either
kind, and leaves the session and the cache unchanged. -/
theorem C10_authenticated_redirects (method : Method) (codigo senha : String)
    (sess : SessionState) (cache : TokenCache) (now : Nat)
    (authResp : HttpResult) (valHttp : ValidationHttp)
    (hauth : sess.usuario_logado = true) :
    login method codigo senha sess cache now authResp valHttp =
      { response := .redirectPortal, session := sess, cache := cache,
        authCalls := 0, validationCalls := 0 } := by
  simp [login, hauth]

/-- Witness for C10 at a concrete authenticated session posting valid-shaped
credentials: the handler still only redirects to the portal. -/
theorem C10_authenticated_redirects_witness :
    login .POST "123" "pw" ⟨true, some "A1", some "Maria"⟩ initialCache 0
        (.ok "tok") (.okJson ⟨some true, some "X", some "Y"⟩) =
      { response := .redirectPortal,
        session := ⟨true, some "A1", some "Maria"⟩, cache := initialCache,
        authCalls := 0, validationCalls := 0 } :=
  C10_authenticated_redirects .POST "123" "pw" ⟨true, some "A1", some "Maria"⟩
    initialCache 0 (.ok "tok") (.okJson ⟨some true, some "X", some "Y"⟩) rfl

end LoginApp
